import Mathlib

/-!
Verification of the document-intake and query UI.

The embedding covers the two source files carrying the program logic:

* src/app/api/process-document/route.ts : the POST endpoint that validates
  the request body, invokes the hosted model, and wraps the reply.
* src/app/page.tsx : the client store (documents, query history, current
  result, two localStorage slots) and its operations: processDocument,
  handleFileUpload, processQuery, removeDocument, clearAllData.

JavaScript values produced by JSON parsing are modelled by the inductive
type Json below; the absent value (undefined) is Option.none at use sites.
The builtins JSON.parse and JSON.stringify are kept as explicit function
parameters, so every theorem quantifies over them.  Date.now, the ISO
timestamp and the Math.random draws are supplied by environment records,
one field per call site.
-/

/-- A JavaScript value obtained from JSON text: null, booleans, numbers
(modelled as rationals), strings, arrays and objects. -/
inductive Json where
  | null
  | bool (b : Bool)
  | num (q : Rat)
  | str (s : String)
  | arr (elems : List Json)
  | obj (fields : List (String × Json))

/-- First binding of a key in an object field list. -/
def lookupField : List (String × Json) → String → Option Json
  | [], _ => none
  | (k, v) :: rest, key => if k = key then some v else lookupField rest key

/-- JavaScript property access o.key on a parsed value: a field of an
object, and undefined (none) on every non-object.  (Access on null and
undefined throws instead; the call sites below handle that case
explicitly.) -/
def jsGet (j : Json) (key : String) : Option Json :=
  match j with
  | Json.obj fields => lookupField fields key
  | _ => none

/-- JavaScript falsiness of a possibly-absent value: undefined, null,
false, 0 and the empty string are falsy. -/
def jsFalsy : Option Json → Bool
  | none => true
  | some Json.null => true
  | some (Json.bool b) => !b
  | some (Json.num q) => q = 0
  | some (Json.str s) => s = ""
  | some (Json.arr _) => false
  | some (Json.obj _) => false

/-! ## The endpoint (src/app/api/process-document/route.ts) -/

/-- Outcome of the generateText call inside the route handler: the
generated text, or a rejection (whose reason is only logged). -/
inductive ModelResult where
  | success (text : String)
  | failure

/-- An HTTP response produced by NextResponse.json: a status code and a
JSON body. -/
structure ApiResponse where
  status : Nat
  body : Json

/-- The fixed 500 reply of the catch block in the route handler. -/
def serverErrorResponse : ApiResponse :=
  ⟨500, Json.obj [("error", Json.str "Failed to process document. Please try again.")]⟩

/-- The POST handler of src/app/api/process-document/route.ts.  The first
argument is the outcome the model invocation would have; the second is the
result of req.json() (none when the request body is not valid JSON, which
makes req.json() throw).  Returns the response paired with whether the
model was invoked.  Destructuring the parsed body throws on null, landing
in the catch block; otherwise the handler 400s when query or documents is
falsy, and else invokes the model. -/
def POST (model : ModelResult) (body : Option Json) : ApiResponse × Bool :=
  match body with
  | none => (serverErrorResponse, false)
  | some Json.null => (serverErrorResponse, false)
  | some b =>
    if jsFalsy (jsGet b "query") || jsFalsy (jsGet b "documents") then
      (⟨400, Json.obj [("error", Json.str "Query and documents are required")]⟩, false)
    else
      match model with
      | ModelResult.success t => (⟨200, Json.obj [("text", Json.str t)]⟩, true)
      | ModelResult.failure => (serverErrorResponse, true)

/-! ## Client data model (src/app/page.tsx) -/

/-- The status field of a stored document. -/
inductive DocStatus where
  | stored
  | processing
deriving DecidableEq

/-- A document record as built by processDocument. -/
structure StoredDocument where
  id : String
  name : String
  content : String
  chunks : Int
  clauses : Int
  size : String
  processTime : String
  status : DocStatus
  uploadDate : String
  type : String

/-- A history record as built by processQuery.  The result field is the
unvalidated parsed payload; none models the JavaScript undefined that
arises when the response envelope has no text string. -/
structure QueryResult where
  id : String
  query : String
  timestamp : String
  result : Option Json
  processingTime : Nat

/-- The browser localStorage, one value per key. -/
def storeGet : List (String × String) → String → Option String
  | [], _ => none
  | (k, v) :: rest, key => if k = key then some v else storeGet rest key

/-- Drop a key from the store (localStorage.removeItem). -/
def storeRemove : List (String × String) → String → List (String × String)
  | [], _ => []
  | (k, v) :: rest, key =>
    if k = key then storeRemove rest key else (k, v) :: storeRemove rest key

/-- Overwrite a key in the store (localStorage.setItem). -/
def storeSet (st : List (String × String)) (key v : String) : List (String × String) :=
  (key, v) :: storeRemove st key

/-- The client state relevant to the claims: the two in-memory lists, the
query text, the current result, and the persisted key-value store. -/
structure AppState where
  docs : List StoredDocument
  history : List QueryResult
  currentQuery : String
  currentResult : Option QueryResult
  store : List (String × String)

/-! ## Document ingestion (processDocument, handleFileUpload) -/

/-- A file-like input: name, byte size, declared media type, and the text
the FileReader decodes from its bytes (readAsText always yields a string;
arbitrary bytes decode to some string). -/
structure FileInput where
  name : String
  size : Nat
  type : String
  raw : String

/-- extractTextFromFile: resolves with the decoded text, or with the
bracketed placeholder when the decoded text is empty (falsy). -/
def extractTextFromFile (f : FileInput) : String :=
  if f.raw = "" then "[" ++ f.type ++ "] " ++ f.name ++ " - Content extracted" else f.raw

/-- The per-call environment of processDocument: the Date.now value, the
suffix Math.random().toString(36).substr(2, 9) produced for the id, the two
Math.random draws for the placeholder counters, and the presentational
strings (size and elapsed-time formatting are floating-point display code,
supplied here as the strings they render to). -/
structure IngestEnv where
  time : Nat
  rand : String
  chunksRand : Rat
  clausesRand : Rat
  sizeStr : String
  processTimeStr : String
  nowIso : String

/-- The document id template: doc_ then Date.now() then _ then the random
base-36 suffix. -/
def mkFileId (time : Nat) (rand : String) : String :=
  "doc_" ++ toString time ++ "_" ++ rand

/-- processDocument: builds the stored record for one file.  chunks and
clauses are the fabricated counters Math.floor(r * 50) + 20 and
Math.floor(r * 20) + 5; type falls back to text/plain when the declared
type is empty. -/
def processDocument (f : FileInput) (env : IngestEnv) : StoredDocument :=
  { id := mkFileId env.time env.rand
    name := f.name
    content := extractTextFromFile f
    chunks := ⌊env.chunksRand * 50⌋ + 20
    clauses := ⌊env.clausesRand * 20⌋ + 5
    size := env.sizeStr
    processTime := env.processTimeStr
    status := DocStatus.stored
    uploadDate := env.nowIso
    type := if f.type = "" then "text/plain" else f.type }

/-- handleFileUpload settled: all files are processed and the batch is
appended to the document list; the persistence effect then rewrites the
document slot.  The stringify parameter is JSON.stringify on the list. -/
def uploadDocuments (stringifyDocs : List StoredDocument → String)
    (batch : List (FileInput × IngestEnv)) (s : AppState) : AppState :=
  let docs1 := s.docs ++ batch.map (fun p => processDocument p.1 p.2)
  { s with docs := docs1
           store := storeSet s.store "llm-documents" (stringifyDocs docs1) }

/-! ## Query dispatch (processQuery) -/

/-- The whitespace set of the trim modelled below: space, tab, carriage
return and newline. -/
def isSpaceChar (c : Char) : Bool := c = ' ' || c = '\t' || c = '\r' || c = '\n'

/-- The trim() applied to the query in the dispatch guard: leading and
trailing whitespace characters are dropped. -/
def trimText (s : String) : String :=
  ⟨(((s.data.dropWhile isSpaceChar).reverse).dropWhile isSpaceChar).reverse⟩

/-- The body handed to fetch: JSON.stringify of the query and the
concatenated documents. -/
structure RequestBody where
  query : String
  documents : String
deriving DecidableEq

/-- The documents field: for each stored document, the block
Document: name, newline, content; blocks joined by two newlines. -/
def documentsContent (docs : List StoredDocument) : String :=
  String.intercalate "\n\n" (docs.map (fun d => "Document: " ++ d.name ++ "\n" ++ d.content))

/-- What the awaited fetch plus response.json() yields: failure covers a
rejected fetch and a response body that is not valid JSON (both throw into
the catch block); otherwise the ok flag (status in the 2xx range) and the
parsed body. -/
inductive TransportResult where
  | failure
  | response (ok : Bool) (data : Json)

/-- Environment of one processQuery run: the transport outcome, the
JSON.parse behaviour applied to the text payload, the Date.now values at
dispatch (line 184), at id creation (line 221) and at the elapsed-time
measurement (line 225), and the ISO timestamp. -/
structure DispatchEnv where
  transport : TransportResult
  parse : String → Option Json
  startTime : Nat
  idTime : Nat
  endTime : Nat
  nowIso : String

/-- The user-visible toast emitted by one processQuery run. -/
inductive ToastKind where
  | invalidQuery
  | querySuccess (decision : Option Json)
  | processingFailed

/-- Observable trace of one processQuery run: the request body passed to
fetch (none when no network call is made) and the toast shown. -/
structure DispatchTrace where
  request : Option RequestBody
  toast : ToastKind

/-- The synthesized fallback object of the catch branch around JSON.parse:
Decision Processed, Justification data.text or the generic string when
that text is empty (the only falsy string), no clause references,
confidence 0.8. -/
def fallbackResult (txt : String) : Json :=
  Json.obj [("Decision", Json.str "Processed"),
            ("Justification", Json.str (if txt = "" then "Query processed successfully" else txt)),
            ("Clause_References", Json.arr []),
            ("Confidence", Json.num 0.8)]

/-- The try block around JSON.parse: the parsed value, or the synthesized
fallback when parsing throws. -/
def parseOrFallback (parse : String → Option Json) (txt : String) : Json :=
  match parse txt with
  | some j => j
  | none => fallbackResult txt

/-- Lines 205-218: when data.text is a string, JSON.parse it and fall back
to the synthesized object if parsing throws; otherwise pass data.text (a
non-string field value, or undefined) through unchanged. -/
def processResponseText (parse : String → Option Json) (data : Json) : Option Json :=
  match jsGet data "text" with
  | some (Json.str s) => some (parseOrFallback parse s)
  | o => o

/-- The history record built on the success path: query_ id from Date.now,
the verbatim query, the ISO timestamp, the processed result, and the
elapsed milliseconds. -/
def mkQueryRecord (env : DispatchEnv) (q : String) (res : Option Json) : QueryResult :=
  { id := "query_" ++ toString env.idTime
    query := q
    timestamp := env.nowIso
    result := res
    processingTime := env.endTime - env.startTime }

/-- The toast of the success branch reads processedResult.Decision, which
throws on undefined and on null (caught as a processing failure); on any
other value the success toast shows the Decision field. -/
def successToast : Option Json → ToastKind
  | none => ToastKind.processingFailed
  | some Json.null => ToastKind.processingFailed
  | some j => ToastKind.querySuccess (jsGet j "Decision")

/-- State change of the ok branch once data.text has been read: the new
record is put in front of the history, becomes the current result, the
query box is cleared, and the history persistence effect rewrites the
history slot. -/
def applySuccess (stringifyHist : List QueryResult → String) (env : DispatchEnv)
    (s : AppState) (data : Json) : AppState :=
  let qr := mkQueryRecord env s.currentQuery (processResponseText env.parse data)
  { s with history := qr :: s.history
           currentResult := some qr
           currentQuery := ""
           store := storeSet s.store "llm-history" (stringifyHist (qr :: s.history)) }

/-- The response.ok branch: reading data.text throws when data is null
(caught, so the state is untouched); otherwise the success path runs. -/
def handleOkData (stringifyHist : List QueryResult → String) (env : DispatchEnv)
    (s : AppState) (data : Json) (body : RequestBody) : AppState × DispatchTrace :=
  match data with
  | Json.null => (s, ⟨some body, ToastKind.processingFailed⟩)
  | _ => (applySuccess stringifyHist env s data,
          ⟨some body, successToast (processResponseText env.parse data)⟩)

/-- processQuery (lines 173-249): the guard refuses when the trimmed query
is empty or no documents are stored; otherwise the body is built and sent,
and the transport outcome is handled as in the source.  A non-ok response
throws data.error into the catch block, leaving the state unchanged. -/
def processQuery (stringifyHist : List QueryResult → String) (env : DispatchEnv)
    (s : AppState) : AppState × DispatchTrace :=
  if trimText s.currentQuery = "" ∨ s.docs.length = 0 then
    (s, ⟨none, ToastKind.invalidQuery⟩)
  else
    let body : RequestBody := ⟨s.currentQuery, documentsContent s.docs⟩
    match env.transport with
    | TransportResult.failure => (s, ⟨some body, ToastKind.processingFailed⟩)
    | TransportResult.response true data => handleOkData stringifyHist env s data body
    | TransportResult.response false _ => (s, ⟨some body, ToastKind.processingFailed⟩)

/-! ## Removal and bulk clear -/

/-- removeDocument settled: the filtered list replaces the document list
and the document persistence effect rewrites its slot; history, current
result and query text are untouched. -/
def removeDocument (stringifyDocs : List StoredDocument → String) (id : String)
    (s : AppState) : AppState :=
  let docs1 := s.docs.filter (fun d => d.id != id)
  { s with docs := docs1
           store := storeSet s.store "llm-documents" (stringifyDocs docs1) }

/-- The clearAllData handler body alone (lines 259-269): both lists are
emptied, the current result dropped, and both localStorage entries
removed. -/
def clearAllDataHandler (s : AppState) : AppState :=
  { docs := []
    history := []
    currentQuery := s.currentQuery
    currentResult := none
    store := storeRemove (storeRemove s.store "llm-documents") "llm-history" }

/-- clearAllData settled: after the handler, both state setters fired, so
on the following render both persistence effects (lines 77-84) run and
write the serialized empty lists back under both keys. -/
def clearAllData (stringifyDocs : List StoredDocument → String)
    (stringifyHist : List QueryResult → String) (s : AppState) : AppState :=
  let s1 := clearAllDataHandler s
  { s1 with store := storeSet (storeSet s1.store "llm-documents" (stringifyDocs s1.docs))
                       "llm-history" (stringifyHist s1.history) }

/-! ## Store lemmas -/

theorem storeGet_set_self (st : List (String × String)) (k v : String) :
    storeGet (storeSet st k v) k = some v := by
  simp [storeSet, storeGet]

theorem storeGet_remove_ne (st : List (String × String)) (k k1 : String) (h : k1 ≠ k) :
    storeGet (storeRemove st k) k1 = storeGet st k1 := by
  induction st with
  | nil => rfl
  | cons p rest ih =>
    rcases p with ⟨a, b⟩
    by_cases ha : a = k
    · subst ha
      have hk : ¬ a = k1 := fun hh => h hh.symm
      simp [storeRemove, storeGet, hk, ih]
    · by_cases hk1 : a = k1
      · simp [storeRemove, storeGet, ha, hk1, h]
      · simp [storeRemove, storeGet, ha, hk1, ih]

theorem storeGet_set_ne (st : List (String × String)) (k v k1 : String) (h : k1 ≠ k) :
    storeGet (storeSet st k v) k1 = storeGet st k1 := by
  have hk : ¬ k = k1 := fun hh => h (hh.symm)
  simp only [storeSet, storeGet, hk, if_false, ite_false]
  exact storeGet_remove_ne st k k1 h

/-! ## Concrete fixtures used by the witnesses -/

/-- A stored document matching the end-to-end scenario of the spec. -/
def sampleDoc : StoredDocument :=
  { id := "doc_1_a"
    name := "policy.txt"
    content := "Knee surgery covered after 2 years."
    chunks := 45
    clauses := 15
    size := "35 Bytes"
    processTime := "1.1s"
    status := DocStatus.stored
    uploadDate := "2025-01-01T00:00:00.000Z"
    type := "text/plain" }

/-- A client state holding the sample document and the sample query. -/
def sampleState : AppState :=
  { docs := [sampleDoc]
    history := []
    currentQuery := "46-year-old male, knee surgery, 3-month policy"
    currentResult := none
    store := [] }

/-- A dispatch environment with fixed clock values. -/
def sampleEnv (t : TransportResult) (p : String → Option Json) : DispatchEnv :=
  { transport := t
    parse := p
    startTime := 1000
    idTime := 1500
    endTime := 1600
    nowIso := "2025-01-01T00:00:01.000Z" }

/-! ## C4: the dispatch guard -/

/-- C4: when the query is empty or whitespace-only, or no documents are
stored, processQuery makes no network call, shows the rejection toast, and
leaves the whole state (documents, history, current result, query text,
store) unchanged. -/
theorem dispatch_guard_rejects (stringifyHist : List QueryResult → String)
    (env : DispatchEnv) (s : AppState)
    (h : trimText s.currentQuery = "" ∨ s.docs.length = 0) :
    processQuery stringifyHist env s = (s, ⟨none, ToastKind.invalidQuery⟩) := by
  unfold processQuery
  rw [if_pos h]

/-- Witness for C4 at a whitespace-only query over a nonempty document
list. -/
theorem dispatch_guard_rejects_witness :
    processQuery (fun _ => "[]") (sampleEnv TransportResult.failure (fun _ => none))
        { sampleState with currentQuery := "   " }
      = ({ sampleState with currentQuery := "   " }, ⟨none, ToastKind.invalidQuery⟩) :=
  dispatch_guard_rejects _ _ _ (Or.inl (by decide))

/-! ## C5: the dispatched request body -/

/-- C5: when the guard passes, the body passed to fetch is exactly the
query string together with the stored documents rendered in list order as
Document: name, newline, content, joined by blank lines. -/
theorem dispatch_request_body (stringifyHist : List QueryResult → String)
    (env : DispatchEnv) (s : AppState)
    (hq : trimText s.currentQuery ≠ "") (hd : s.docs.length ≠ 0) :
    (processQuery stringifyHist env s).2.request =
      some ⟨s.currentQuery, documentsContent s.docs⟩ := by
  unfold processQuery
  rw [if_neg (by tauto)]
  rcases env with ⟨tr, p, t1, t2, t3, iso⟩
  cases tr with
  | failure => rfl
  | response ok data =>
    cases ok with
    | false => rfl
    | true => cases data <;> rfl

/-- Witness for C5: uploading policy.txt and submitting the sample query
sends a body holding the literal query and the block Document: policy.txt
followed by the file content. -/
theorem dispatch_request_body_witness :
    (processQuery (fun _ => "[]") (sampleEnv TransportResult.failure (fun _ => none))
        sampleState).2.request =
      some ⟨"46-year-old male, knee surgery, 3-month policy",
            "Document: policy.txt\nKnee surgery covered after 2 years."⟩ := by
  rw [dispatch_request_body _ _ _ (by decide) (by decide)]
  rfl

/-! ## C10: single-document removal -/

/-- C10: removeDocument keeps exactly the documents whose id differs from
the given one, in their original order and contents (a sublist of the
original list), and leaves the query history, the current result and the
query text unchanged. -/
theorem remove_document_spec (stringifyDocs : List StoredDocument → String)
    (docId : String) (s : AppState) :
    List.Sublist (removeDocument stringifyDocs docId s).docs s.docs ∧
    (∀ d : StoredDocument,
      d ∈ (removeDocument stringifyDocs docId s).docs ↔ d ∈ s.docs ∧ d.id ≠ docId) ∧
    (removeDocument stringifyDocs docId s).history = s.history ∧
    (removeDocument stringifyDocs docId s).currentResult = s.currentResult ∧
    (removeDocument stringifyDocs docId s).currentQuery = s.currentQuery := by
  refine ⟨List.filter_sublist _, ?_, rfl, rfl, rfl⟩
  intro d
  simp [removeDocument, List.mem_filter, bne_iff_ne]

/-- Witness for C10: removing the sample document id leaves the history
untouched. -/
theorem remove_document_spec_witness :
    (removeDocument (fun _ => "[]") "doc_1_a" sampleState).history = sampleState.history :=
  (remove_document_spec (fun _ => "[]") "doc_1_a" sampleState).2.2.1

/-! ## C6: bulk clear (code bug) -/

/-- C6 claims that after the bulk clear both in-memory lists are empty and
both persisted entries are absent.  The lists are indeed emptied and the
current result dropped, but because clearAllData sets both pieces of state,
the persistence effects of lines 77-84 run on the following render and
write the serialized empty lists back: both keys are present again
immediately after the clear, holding stringify of the empty list.  This
theorem evaluates the settled behaviour, refuting the absence part of the
claim while confirming the in-memory part. -/
theorem clear_all_rewrites_entries (stringifyDocs : List StoredDocument → String)
    (stringifyHist : List QueryResult → String) (s : AppState) :
    (clearAllData stringifyDocs stringifyHist s).docs = [] ∧
    (clearAllData stringifyDocs stringifyHist s).history = [] ∧
    (clearAllData stringifyDocs stringifyHist s).currentResult = none ∧
    storeGet (clearAllData stringifyDocs stringifyHist s).store "llm-documents"
      = some (stringifyDocs []) ∧
    storeGet (clearAllData stringifyDocs stringifyHist s).store "llm-history"
      = some (stringifyHist []) := by
  refine ⟨rfl, rfl, rfl, ?_, ?_⟩
  · show storeGet (storeSet (storeSet (clearAllDataHandler s).store "llm-documents"
      (stringifyDocs [])) "llm-history" (stringifyHist [])) "llm-documents" = some (stringifyDocs [])
    rw [storeGet_set_ne _ _ _ _ (by decide)]
    exact storeGet_set_self _ _ _
  · exact storeGet_set_self _ _ _

/-! ## The success path of processQuery -/

/-- When the guard passes, the response is 2xx and its parsed body is not
null, processQuery runs the success branch: the new record is stored and
the success-or-throw toast shown. -/
theorem processQuery_ok (stringifyHist : List QueryResult → String) (env : DispatchEnv)
    (s : AppState) (data : Json)
    (hq : trimText s.currentQuery ≠ "") (hd : s.docs.length ≠ 0)
    (ht : env.transport = TransportResult.response true data) (hn : data ≠ Json.null) :
    processQuery stringifyHist env s =
      (applySuccess stringifyHist env s data,
       ⟨some ⟨s.currentQuery, documentsContent s.docs⟩,
        successToast (processResponseText env.parse data)⟩) := by
  unfold processQuery
  rw [if_neg (by tauto)]
  simp only [ht]
  cases data <;> first | exact absurd rfl hn | rfl

/-! ## C1: the fallback on unparseable model output -/

/-- C1: for a 2xx response whose text payload is a string that JSON.parse
rejects, the stored result is exactly the synthesized fallback object:
Decision Processed, Justification the raw text (or the fixed generic
string when that text is absent, that is, the empty string), an empty
clause-reference list, and Confidence 0.8. -/
theorem fallback_on_invalid_json (stringifyHist : List QueryResult → String)
    (env : DispatchEnv) (s : AppState) (data : Json) (txt : String)
    (hq : trimText s.currentQuery ≠ "") (hd : s.docs.length ≠ 0)
    (ht : env.transport = TransportResult.response true data)
    (hs : jsGet data "text" = some (Json.str txt))
    (hp : env.parse txt = none) :
    (processQuery stringifyHist env s).1.currentResult =
      some (mkQueryRecord env s.currentQuery (some (Json.obj
        [("Decision", Json.str "Processed"),
         ("Justification", Json.str (if txt = "" then "Query processed successfully" else txt)),
         ("Clause_References", Json.arr []),
         ("Confidence", Json.num 0.8)]))) ∧
    (processQuery stringifyHist env s).1.history =
      mkQueryRecord env s.currentQuery (some (fallbackResult txt)) :: s.history := by
  have hn : data ≠ Json.null := by
    intro h
    subst h
    simp [jsGet] at hs
  have hres : processResponseText env.parse data = some (fallbackResult txt) := by
    unfold processResponseText
    rw [hs]
    show some (parseOrFallback env.parse txt) = some (fallbackResult txt)
    unfold parseOrFallback
    rw [hp]
  rw [processQuery_ok stringifyHist env s data hq hd ht hn]
  constructor
  · show some (mkQueryRecord env s.currentQuery (processResponseText env.parse data)) = _
    rw [hres]
    rfl
  · show mkQueryRecord env s.currentQuery (processResponseText env.parse data) :: s.history = _
    rw [hres]

/-- A 2xx envelope whose text payload is not valid JSON. -/
def invalidJsonData : Json := Json.obj [("text", Json.str "plain text answer")]

/-- Witness for C1 at a concrete unparseable payload. -/
theorem fallback_on_invalid_json_witness :
    (processQuery (fun _ => "[]")
        (sampleEnv (TransportResult.response true invalidJsonData) (fun _ => none))
        sampleState).1.currentResult =
      some (mkQueryRecord (sampleEnv (TransportResult.response true invalidJsonData)
          (fun _ => none)) "46-year-old male, knee surgery, 3-month policy"
        (some (Json.obj
          [("Decision", Json.str "Processed"),
           ("Justification", Json.str "plain text answer"),
           ("Clause_References", Json.arr []),
           ("Confidence", Json.num 0.8)]))) :=
  (fallback_on_invalid_json (fun _ => "[]") _ sampleState invalidJsonData "plain text answer"
    (by decide) (by decide) rfl rfl rfl).1

/-! ## C2: valid JSON stored verbatim -/

/-- C2: for a 2xx response whose text payload is a string that JSON.parse
accepts, the new record stores exactly the parsed structure, with no field
renaming, coercion or validation, and that record becomes the current
(displayed) result. -/
theorem parsed_json_stored_verbatim (stringifyHist : List QueryResult → String)
    (env : DispatchEnv) (s : AppState) (data : Json) (txt : String) (j : Json)
    (hq : trimText s.currentQuery ≠ "") (hd : s.docs.length ≠ 0)
    (ht : env.transport = TransportResult.response true data)
    (hs : jsGet data "text" = some (Json.str txt))
    (hp : env.parse txt = some j) :
    (processQuery stringifyHist env s).1.history =
      mkQueryRecord env s.currentQuery (some j) :: s.history ∧
    (processQuery stringifyHist env s).1.currentResult =
      some (mkQueryRecord env s.currentQuery (some j)) := by
  have hn : data ≠ Json.null := by
    intro h
    subst h
    simp [jsGet] at hs
  have hres : processResponseText env.parse data = some j := by
    unfold processResponseText
    rw [hs]
    show some (parseOrFallback env.parse txt) = some j
    unfold parseOrFallback
    rw [hp]
  rw [processQuery_ok stringifyHist env s data hq hd ht hn]
  constructor
  · show mkQueryRecord env s.currentQuery (processResponseText env.parse data) :: s.history = _
    rw [hres]
  · show some (mkQueryRecord env s.currentQuery (processResponseText env.parse data)) = _
    rw [hres]

/-- A 2xx envelope whose text payload is the documented decision shape. -/
def validJsonData : Json :=
  Json.obj [("text", Json.str "{ decision json }")]

/-- The structure the parse of the sample payload yields. -/
def sampleDecision : Json :=
  Json.obj [("Decision", Json.str "Approved"),
            ("Amount", Json.str "Rs 200000"),
            ("Justification", Json.str "Covered after waiting period."),
            ("Clause_References", Json.arr [Json.obj
              [("Document", Json.str "policy.txt"),
               ("Clause_Snippet", Json.str "Knee surgery covered after 2 years."),
               ("Page", Json.str "1"),
               ("Matched_Concept", Json.str "waiting period")]]),
            ("Confidence", Json.num 0.92)]

/-- Witness for C2 at a concrete parse result. -/
theorem parsed_json_stored_verbatim_witness :
    (processQuery (fun _ => "[]")
        (sampleEnv (TransportResult.response true validJsonData)
          (fun _ => some sampleDecision)) sampleState).1.history =
      mkQueryRecord (sampleEnv (TransportResult.response true validJsonData)
          (fun _ => some sampleDecision))
        "46-year-old male, knee surgery, 3-month policy" (some sampleDecision) :: [] :=
  (parsed_json_stored_verbatim (fun _ => "[]") _ sampleState validJsonData
    "{ decision json }" sampleDecision (by decide) (by decide) rfl rfl rfl).1

/-! ## C7: the query-history lifecycle -/

/-- C7: the history changes only through a successful round trip (or a
clear operation).  On a guard rejection, a transport failure (rejected
fetch or an unparseable response body) or a non-2xx response, the history
is untouched; on a 2xx response with a JSON body (other than literal null,
which this endpoint never emits and which aborts the handler before
recording), exactly one new record is put in front of the list, carrying
the verbatim query text, the ISO timestamp and the elapsed wall-clock
milliseconds between dispatch and response, with every existing record
kept unchanged behind it; document removal and ingestion never touch the
history. -/
theorem history_lifecycle (stringifyHist : List QueryResult → String)
    (stringifyDocs : List StoredDocument → String) (env : DispatchEnv) (s : AppState) :
    ((trimText s.currentQuery = "" ∨ s.docs.length = 0) →
      (processQuery stringifyHist env s).1.history = s.history) ∧
    (env.transport = TransportResult.failure →
      (processQuery stringifyHist env s).1.history = s.history) ∧
    (∀ data : Json, env.transport = TransportResult.response false data →
      (processQuery stringifyHist env s).1.history = s.history) ∧
    (∀ data : Json, env.transport = TransportResult.response true data →
      data ≠ Json.null → trimText s.currentQuery ≠ "" → s.docs.length ≠ 0 →
      (processQuery stringifyHist env s).1.history =
        { id := "query_" ++ toString env.idTime
          query := s.currentQuery
          timestamp := env.nowIso
          result := processResponseText env.parse data
          processingTime := env.endTime - env.startTime } :: s.history) ∧
    (∀ docId : String, (removeDocument stringifyDocs docId s).history = s.history) ∧
    (∀ batch : List (FileInput × IngestEnv),
      (uploadDocuments stringifyDocs batch s).history = s.history) := by
  refine ⟨?_, ?_, ?_, ?_, fun _ => rfl, fun _ => rfl⟩
  · intro h
    unfold processQuery
    rw [if_pos h]
  · intro h
    by_cases hg : trimText s.currentQuery = "" ∨ s.docs.length = 0
    · unfold processQuery
      rw [if_pos hg]
    · unfold processQuery
      rw [if_neg hg]
      simp only [h]
  · intro data h
    by_cases hg : trimText s.currentQuery = "" ∨ s.docs.length = 0
    · unfold processQuery
      rw [if_pos hg]
    · unfold processQuery
      rw [if_neg hg]
      simp only [h]
  · intro data ht hn hq hd
    rw [processQuery_ok stringifyHist env s data hq hd ht hn]
    rfl

/-- Witness for C7: the success clause at a concrete 2xx response,
showing the single prepended record with elapsed time 600 ms. -/
theorem history_lifecycle_witness :
    (processQuery (fun _ => "[]")
        (sampleEnv (TransportResult.response true invalidJsonData) (fun _ => none))
        sampleState).1.history =
      { id := "query_1500"
        query := "46-year-old male, knee surgery, 3-month policy"
        timestamp := "2025-01-01T00:00:01.000Z"
        result := some (fallbackResult "plain text answer")
        processingTime := 600 } :: [] := by
  have h := (history_lifecycle (fun _ => "[]") (fun _ => "[]")
    (sampleEnv (TransportResult.response true invalidJsonData) (fun _ => none))
    sampleState).2.2.2.1 invalidJsonData rfl (by intro hh; cases hh) (by decide) (by decide)
  rw [h]
  rfl

/-! ## C9: the fabricated placeholder counters -/

/-- C9: whatever the file, with the two Math.random draws in [0, 1), the
fabricated chunks counter is an integer in [20, 69] and the fabricated
clauses counter an integer in [5, 24]; neither depends on the file
content. -/
theorem placeholder_counters_range (f : FileInput) (env : IngestEnv)
    (h1 : 0 ≤ env.chunksRand) (h2 : env.chunksRand < 1)
    (h3 : 0 ≤ env.clausesRand) (h4 : env.clausesRand < 1) :
    20 ≤ (processDocument f env).chunks ∧ (processDocument f env).chunks ≤ 69 ∧
    5 ≤ (processDocument f env).clauses ∧ (processDocument f env).clauses ≤ 24 := by
  have hc : (processDocument f env).chunks = ⌊env.chunksRand * 50⌋ + 20 := rfl
  have hl : (processDocument f env).clauses = ⌊env.clausesRand * 20⌋ + 5 := rfl
  have c0 : (0 : Int) ≤ ⌊env.chunksRand * 50⌋ :=
    Int.floor_nonneg.mpr (mul_nonneg h1 (by norm_num))
  have c1 : ⌊env.chunksRand * 50⌋ < 50 := Int.floor_lt.mpr (by push_cast; nlinarith)
  have d0 : (0 : Int) ≤ ⌊env.clausesRand * 20⌋ :=
    Int.floor_nonneg.mpr (mul_nonneg h3 (by norm_num))
  have d1 : ⌊env.clausesRand * 20⌋ < 20 := Int.floor_lt.mpr (by push_cast; nlinarith)
  rw [hc, hl]
  exact ⟨by omega, by omega, by omega, by omega⟩

/-- A concrete ingestion environment with both draws at one half. -/
def sampleIngestEnv : IngestEnv :=
  { time := 1700000000000
    rand := "k3j9s8d7f"
    chunksRand := 1/2
    clausesRand := 1/2
    sizeStr := "35 Bytes"
    processTimeStr := "1.1s"
    nowIso := "2025-01-01T00:00:00.000Z" }

/-- The policy.txt file of the end-to-end scenario as a raw input. -/
def sampleFile : FileInput :=
  { name := "policy.txt"
    size := 35
    type := "text/plain"
    raw := "Knee surgery covered after 2 years." }

/-- Witness for C9 at the concrete draws. -/
theorem placeholder_counters_range_witness :
    20 ≤ (processDocument sampleFile sampleIngestEnv).chunks ∧
    (processDocument sampleFile sampleIngestEnv).chunks ≤ 69 ∧
    5 ≤ (processDocument sampleFile sampleIngestEnv).clauses ∧
    (processDocument sampleFile sampleIngestEnv).clauses ≤ 24 :=
  placeholder_counters_range sampleFile sampleIngestEnv
    (by norm_num [sampleIngestEnv]) (by norm_num [sampleIngestEnv])
    (by norm_num [sampleIngestEnv]) (by norm_num [sampleIngestEnv])

/-! ## C3: endpoint status behaviour -/

/-- C3 counterexample: a request body that parses to JSON null has both
the query and the documents field absent, yet the endpoint answers 500
(destructuring null throws into the catch block), not the claimed 400;
the model is not invoked. -/
theorem post_null_body_counterexample :
    jsGet Json.null "query" = none ∧ jsGet Json.null "documents" = none ∧
    POST (ModelResult.success "ok") (some Json.null) = (serverErrorResponse, false) ∧
    serverErrorResponse.status = 500 :=
  ⟨rfl, rfl, rfl, rfl⟩

/-- C3 (amended): for a body parsing to anything but null, a falsy
(absent or empty) query or documents field yields 400 with the fixed error
body and no model invocation; with both fields truthy, a successful
invocation yields 200 carrying the generated text verbatim and a failed
one the fixed generic 500; an unparseable body yields the generic 500
without invoking the model (and so does a body parsing to null, per the
counterexample). -/
theorem post_endpoint_behavior (model : ModelResult) (b : Json) (hb : b ≠ Json.null) :
    ((jsFalsy (jsGet b "query") || jsFalsy (jsGet b "documents")) = true →
      POST model (some b) =
        (⟨400, Json.obj [("error", Json.str "Query and documents are required")]⟩, false)) ∧
    ((jsFalsy (jsGet b "query") || jsFalsy (jsGet b "documents")) = false →
      (∀ t : String, model = ModelResult.success t →
        POST model (some b) = (⟨200, Json.obj [("text", Json.str t)]⟩, true)) ∧
      (model = ModelResult.failure →
        POST model (some b) = (serverErrorResponse, true))) ∧
    POST model none = (serverErrorResponse, false) := by
  cases b with
  | null => exact absurd rfl hb
  | bool x =>
    refine ⟨fun h => ?_, fun h => ⟨fun t ht => ?_, fun hm => ?_⟩, rfl⟩ <;>
      first
        | (subst ht; simp [POST, h])
        | (subst hm; simp [POST, h])
        | simp [POST, h]
  | num q =>
    refine ⟨fun h => ?_, fun h => ⟨fun t ht => ?_, fun hm => ?_⟩, rfl⟩ <;>
      first
        | (subst ht; simp [POST, h])
        | (subst hm; simp [POST, h])
        | simp [POST, h]
  | str t0 =>
    refine ⟨fun h => ?_, fun h => ⟨fun t ht => ?_, fun hm => ?_⟩, rfl⟩ <;>
      first
        | (subst ht; simp [POST, h])
        | (subst hm; simp [POST, h])
        | simp [POST, h]
  | arr xs =>
    refine ⟨fun h => ?_, fun h => ⟨fun t ht => ?_, fun hm => ?_⟩, rfl⟩ <;>
      first
        | (subst ht; simp [POST, h])
        | (subst hm; simp [POST, h])
        | simp [POST, h]
  | obj fs =>
    refine ⟨fun h => ?_, fun h => ⟨fun t ht => ?_, fun hm => ?_⟩, rfl⟩ <;>
      first
        | (subst ht; simp [POST, h])
        | (subst hm; simp [POST, h])
        | simp [POST, h]

/-- Witness for C3: the end-to-end scenario body with an empty query and
nonempty documents draws the 400 reply without a model invocation. -/
theorem post_endpoint_behavior_witness :
    POST (ModelResult.success "ok")
        (some (Json.obj [("query", Json.str ""), ("documents", Json.str "x")])) =
      (⟨400, Json.obj [("error", Json.str "Query and documents are required")]⟩, false) :=
  (post_endpoint_behavior (ModelResult.success "ok")
    (Json.obj [("query", Json.str ""), ("documents", Json.str "x")])
    (fun h => Json.noConfusion h)).1 rfl

/-! ## C8: document-id uniqueness -/

theorem digitChar_ne_underscore (m : Nat) : Nat.digitChar m ≠ '_' := by
  match m with
  | 0 | 1 | 2 | 3 | 4 | 5 | 6 | 7 | 8 | 9 | 10 | 11 | 12 | 13 | 14 | 15 => decide
  | n + 16 =>
    have h : Nat.digitChar (n + 16) = '*' := by
      unfold Nat.digitChar
      repeat rw [if_neg (by omega)]
    rw [h]
    decide

theorem toDigitsCore_ne_underscore : ∀ (fuel n : Nat) (ds : List Char),
    (∀ c ∈ ds, c ≠ '_') → ∀ c ∈ Nat.toDigitsCore 10 fuel n ds, c ≠ '_'
  | 0, _, _, hds => by
    rw [Nat.toDigitsCore.eq_def]
    exact hds
  | fuel + 1, n, ds, hds => by
    rw [Nat.toDigitsCore.eq_def]
    dsimp only []
    split
    · intro c hc
      rcases List.mem_cons.mp hc with h | h
      · subst h
        exact digitChar_ne_underscore _
      · exact hds c h
    · refine toDigitsCore_ne_underscore fuel _ _ ?_
      intro c hc
      rcases List.mem_cons.mp hc with h | h
      · subst h
        exact digitChar_ne_underscore _
      · exact hds c h

/-- Every character of a decimal rendering of a Nat is a digit, never the
underscore used as the id separator. -/
theorem repr_ne_underscore (n : Nat) : ∀ c ∈ (Nat.repr n).data, c ≠ '_' := by
  intro c hc
  exact toDigitsCore_ne_underscore (n + 1) n [] (by intro c h; cases h) c hc

theorem data_append (a b : String) : (a ++ b).data = a.data ++ b.data := rfl

theorem string_eq_of_data (a b : String) (h : a.data = b.data) : a = b := by
  cases a
  cases b
  exact congrArg String.mk h

/-- Splitting at the first underscore: two concatenations of an
underscore-free prefix, an underscore and a suffix agree only when both
parts agree. -/
theorem append_sep_inj : ∀ (a1 a2 b1 b2 : List Char),
    (∀ c ∈ a1, c ≠ '_') → (∀ c ∈ a2, c ≠ '_') →
    a1 ++ '_' :: b1 = a2 ++ '_' :: b2 → a1 = a2 ∧ b1 = b2
  | [], [], b1, b2, _, _, h => by simpa using h
  | [], c :: a2, b1, b2, _, h2, h => by
    exfalso
    have hc : c = '_' := by
      have := congrArg (fun l => l.head?) h
      simpa using this.symm
    exact h2 c (by simp) hc
  | c :: a1, [], b1, b2, h1, _, h => by
    exfalso
    have hc : c = '_' := by
      have := congrArg (fun l => l.head?) h
      simpa using this
    exact h1 c (by simp) hc
  | c1 :: a1, c2 :: a2, b1, b2, h1, h2, h => by
    have hh : c1 = c2 := by
      have := congrArg (fun l => l.head?) h
      simpa using this
    have ht : a1 ++ '_' :: b1 = a2 ++ '_' :: b2 := by
      have := congrArg (fun l => l.tail) h
      simpa using this
    have hr := append_sep_inj a1 a2 b1 b2 (fun c hc => h1 c (by simp [hc]))
      (fun c hc => h2 c (by simp [hc])) ht
    exact ⟨by rw [hh, hr.1], hr.2⟩

/-- Two generated ids agree only when the random suffixes agree: the
decimal timestamp holds no underscore, so the suffix after the second
underscore is recovered unambiguously. -/
theorem mkFileId_rand_inj (t1 t2 : Nat) (r1 r2 : String)
    (h : mkFileId t1 r1 = mkFileId t2 r2) : r1 = r2 := by
  have hd : ("doc_".data ++ ((Nat.repr t1).data ++ '_' :: r1.data)) =
      ("doc_".data ++ ((Nat.repr t2).data ++ '_' :: r2.data)) := by
    have hx := congrArg String.data h
    simpa [mkFileId, data_append, toString, List.append_assoc] using hx
  have h2 := List.append_cancel_left hd
  have h3 := append_sep_inj _ _ _ _ (repr_ne_underscore t1) (repr_ne_underscore t2) h2
  exact string_eq_of_data _ _ h3.2

/-- Two raw files for the collision scenario. -/
def fileA : FileInput := { name := "a.txt", size := 1, type := "text/plain", raw := "aa" }

def fileB : FileInput := { name := "b.txt", size := 2, type := "text/plain", raw := "bb" }

/-- C8 counterexample: two distinct files ingested in the same millisecond
whose Math.random draw repeats receive the very same id, so the records of
one session are not pairwise distinct as claimed. -/
theorem doc_id_collision_counterexample :
    fileA.name ≠ fileB.name ∧
    (processDocument fileA sampleIngestEnv).id = (processDocument fileB sampleIngestEnv).id ∧
    ¬ (([(fileA, sampleIngestEnv), (fileB, sampleIngestEnv)].map
        (fun p => processDocument p.1 p.2)).map (fun d => d.id)).Pairwise
      (fun a b => a ≠ b) := by
  refine ⟨by decide, rfl, fun h => ?_⟩
  simp only [List.map_cons, List.map_nil, List.pairwise_cons] at h
  have hne := h.1 ((processDocument fileB sampleIngestEnv).id) (by simp)
  exact hne (by rfl)

/-- C8 (amended): the ids of one ingestion batch are pairwise distinct
whenever the random suffixes drawn for them are pairwise distinct (the
format is injective in the suffix); nothing in the code rules out a
repeated draw, per the counterexample. -/
theorem doc_ids_distinct_of_rand_distinct (batch : List (FileInput × IngestEnv))
    (h : (batch.map (fun p => p.2.rand)).Pairwise (fun a b => a ≠ b)) :
    ((batch.map (fun p => processDocument p.1 p.2)).map (fun d => d.id)).Pairwise
      (fun a b => a ≠ b) := by
  rw [List.map_map, List.pairwise_map]
  rw [List.pairwise_map] at h
  exact h.imp (fun hab hid => hab (mkFileId_rand_inj _ _ _ _ hid))

/-- A second ingestion environment with a different random suffix. -/
def ingestEnvB : IngestEnv := { sampleIngestEnv with rand := "zzzzzzzzz" }

/-- Witness for the amended C8 on a two-file batch with distinct suffixes. -/
theorem doc_ids_distinct_of_rand_distinct_witness :
    (([(fileA, sampleIngestEnv), (fileB, ingestEnvB)].map
        (fun p => processDocument p.1 p.2)).map (fun d => d.id)).Pairwise
      (fun a b => a ≠ b) :=
  doc_ids_distinct_of_rand_distinct _ (by
    simp only [List.map_cons, List.map_nil, List.pairwise_cons]
    refine ⟨?_, by simp⟩
    intro x hx
    simp only [List.mem_cons, List.not_mem_nil, or_false] at hx
    subst hx
    decide)

/-! ## Bridge: the shape of 2xx endpoint responses -/

/-- For a body parsing to anything but null, the handler is the guard
conditional followed by the invocation dispatch. -/
theorem POST_nonNull (m : ModelResult) (b : Json) (hb : b ≠ Json.null) :
    POST m (some b) =
      if jsFalsy (jsGet b "query") || jsFalsy (jsGet b "documents") then
        (⟨400, Json.obj [("error", Json.str "Query and documents are required")]⟩, false)
      else
        match m with
        | ModelResult.success t => (⟨200, Json.obj [("text", Json.str t)]⟩, true)
        | ModelResult.failure => (serverErrorResponse, true) := by
  cases b <;> first | exact absurd rfl hb | rfl

/-- Every 200 response of the endpoint carries the generated text verbatim
as a string under the text key, so the hypotheses of the two client-side
parse theorems cover every 2xx endpoint response. -/
theorem POST_status200_text (m : ModelResult) (rb : Option Json)
    (hst : ((POST m rb).1).status = 200) :
    ∃ t : String, jsGet ((POST m rb).1).body "text" = some (Json.str t) ∧
      m = ModelResult.success t := by
  rcases rb with _ | b
  · exact absurd hst (by simp [POST, serverErrorResponse])
  by_cases hb : b = Json.null
  · subst hb
    exact absurd hst (by simp [POST, serverErrorResponse])
  rw [POST_nonNull m b hb] at hst ⊢
  by_cases hc : (jsFalsy (jsGet b "query") || jsFalsy (jsGet b "documents")) = true
  · rw [if_pos hc] at hst
    exact absurd hst (by norm_num)
  · rw [if_neg hc] at hst ⊢
    cases m with
    | success t => exact ⟨t, rfl, rfl⟩
    | failure => exact absurd hst (by norm_num [serverErrorResponse])
